import Mathlib

/-!
Verification of the resource-management core of the AI accelerator driver:
the idr-backed handle table, the fence counter, the scatter-gather builder,
the DMA channel bitmap, and the ioctl handlers built on them.  Definitions
are shallow embeddings of the C functions in `src/driver/ai_accel.c`,
`src/driver/ai_dma.c` and `src/driver/ai_ioctl.c`; user-space copies and
kernel allocations that can fail are threaded through explicit environment
records.
-/

namespace AiAccel

/-! Linux errno constants used by the driver (handlers return them negated).
The constant for errno 5 is named `EIO_err` here. -/

def EIO_err : Int := 5
def ENOMEM : Int := 12
def EFAULT : Int := 14
def ENODEV : Int := 19
def EINVAL : Int := 22
def ENOSPC : Int := 28
def ETIMEDOUT : Int := 110

/-- Status code AI_STATUS_SUCCESS from the uapi headers. -/
def AI_STATUS_SUCCESS : Int := 0

/-! ## Handle table: the Linux idr

`ai_accel.c` keeps one idr per namespace (`buffer_idr`, `model_idr`).  An
idr maps small integer IDs to pointers; `idr_alloc(idr, p, start, 0, ...)`
stores `p` under the lowest unused ID at or above `start` (bounded by
INT_MAX) and `idr_remove` deletes one ID.  The table is embedded as an
association list of entries. -/

structure Idr (α : Type) where
  entries : List (Nat × α)

/-- IDs currently present in the table. -/
def Idr.keys {α : Type} (s : Idr α) : List Nat :=
  s.entries.map Prod.fst

/-- Search for the first integer at or above `n` that is not a used key,
given enough fuel to step over every used key; this is the lowest-free-ID
scan that `idr_alloc` performs. -/
def findFree (keys : List Nat) : Nat → Nat → Nat
  | n, 0 => n
  | n, fuel + 1 => if n ∈ keys then findFree keys (n + 1) fuel else n

/-- Highest ID `idr_alloc` may return: IDs are C `int`s, so INT_MAX. -/
def IDR_MAX : Nat := 2 ^ 31 - 1

/-- Embedding of `idr_alloc(idr, v, start, 0, GFP_KERNEL)`: store `v` under
the lowest free ID at or above `start`, or fail with `-ENOSPC` when that ID
would exceed INT_MAX. -/
def idr_alloc {α : Type} (s : Idr α) (v : α) (start : Nat) : Except Int (Nat × Idr α) :=
  let h := findFree s.keys start (s.keys.length + 1)
  if h ≤ IDR_MAX then .ok (h, ⟨(h, v) :: s.entries⟩) else .error (-ENOSPC)

/-- Embedding of `idr_find`: the value stored under ID `h`, if any. -/
def idr_find {α : Type} (s : Idr α) (h : Nat) : Option α :=
  (s.entries.find? (fun e => e.1 == h)).map Prod.snd

/-- Embedding of `idr_remove`: delete the entry stored under ID `h`. -/
def idr_remove {α : Type} (s : Idr α) (h : Nat) : Idr α :=
  ⟨s.entries.filter (fun e => e.1 != h)⟩

/-! Fresh-ID lemmas for `findFree`.  The measure is the number of keys at
or above the scan position. -/

theorem countP_succ_le (keys : List Nat) (n : Nat) :
    keys.countP (fun k => decide (n + 1 ≤ k)) ≤ keys.countP (fun k => decide (n ≤ k)) := by
  induction keys with
  | nil => simp
  | cons a t ih =>
    simp only [List.countP_cons]
    have hle : (if decide (n + 1 ≤ a) = true then 1 else 0) ≤
        (if decide (n ≤ a) = true then 1 else 0) := by
      by_cases h1 : n + 1 ≤ a
      · have h2 : n ≤ a := by omega
        simp [h1, h2]
      · simp [h1]
    omega

theorem countP_succ_lt_of_mem {keys : List Nat} {n : Nat} (hmem : n ∈ keys) :
    keys.countP (fun k => decide (n + 1 ≤ k)) < keys.countP (fun k => decide (n ≤ k)) := by
  induction keys with
  | nil => cases hmem
  | cons a t ih =>
    simp only [List.countP_cons]
    rcases List.mem_cons.mp hmem with h | h
    · subst h
      have := countP_succ_le t n
      simp only [decide_eq_true_eq]
      rw [if_neg (by omega : ¬ (n + 1 ≤ n)), if_pos (le_refl n)]
      omega
    · have hlt := ih h
      have hle : (if decide (n + 1 ≤ a) = true then 1 else 0) ≤
          (if decide (n ≤ a) = true then 1 else 0) := by
        by_cases h1 : n + 1 ≤ a
        · have h2 : n ≤ a := by omega
          simp [h1, h2]
        · simp [h1]
      omega

theorem findFree_ge (keys : List Nat) : ∀ fuel n, n ≤ findFree keys n fuel := by
  intro fuel
  induction fuel with
  | zero => intro n; simp [findFree]
  | succ fuel ih =>
    intro n
    simp only [findFree]
    split
    · exact le_trans (Nat.le_succ n) (ih (n + 1))
    · exact le_refl n

theorem findFree_not_mem (keys : List Nat) :
    ∀ fuel n, keys.countP (fun k => decide (n ≤ k)) < fuel →
      findFree keys n fuel ∉ keys := by
  intro fuel
  induction fuel with
  | zero => intro n h; exact absurd h (Nat.not_lt_zero _)
  | succ fuel ih =>
    intro n h
    simp only [findFree]
    split
    case isTrue hmem =>
      apply ih (n + 1)
      have hlt := countP_succ_lt_of_mem hmem
      omega
    case isFalse hnot => exact hnot

/-- A successful `idr_alloc` returns an ID that is fresh, at or above
`start`, and the new table holds exactly the old entries plus the new one. -/
theorem idr_alloc_spec {α : Type} (s : Idr α) (v : α) (start : Nat)
    (h : Nat) (s' : Idr α) (hok : idr_alloc s v start = .ok (h, s')) :
    h ∉ s.keys ∧ start ≤ h ∧ s'.keys = h :: s.keys := by
  unfold idr_alloc at hok
  simp only at hok
  split at hok
  · cases hok
    refine ⟨?_, ?_, ?_⟩
    · apply findFree_not_mem
      have hcnt : s.keys.countP (fun k => decide (start ≤ k)) ≤ s.keys.length :=
        List.countP_le_length _
      omega
    · exact findFree_ge s.keys _ start
    · simp [Idr.keys]
  · cases hok

/-- Removing an ID keeps the key list a sublist of the original. -/
theorem idr_remove_keys_sublist {α : Type} (s : Idr α) (h : Nat) :
    (idr_remove s h).keys.Sublist s.keys := by
  unfold idr_remove Idr.keys
  exact (List.filter_sublist s.entries).map Prod.fst

/-! ## Device state and ioctl handlers of `ai_accel.c`

The device keeps two idr namespaces, a fence counter and two statistics
counters.  `fence_counter` is an `atomic_t`, which is a 32-bit `int` in the
kernel, so it is carried as a natural number below `2 ^ 32` holding the
two-complement bit pattern. -/

/-- Byte limit `caps.max_alloc_size` set in `ai_accel_init` (256 MB). -/
def MAX_ALLOC_SIZE : Nat := 256 * 2 ^ 20

structure AiBuffer where
  size : Nat
  flags : Nat

structure AiModel where
  size : Nat
  flags : Nat

structure AiDevice where
  buffer_idr : Idr AiBuffer
  model_idr : Idr AiModel
  fence_counter : Nat
  total_inferences : Nat
  total_bytes_processed : Nat

/-- Device state right after `ai_accel_init`: empty tables, counter 0. -/
def initDevice : AiDevice :=
  ⟨⟨[]⟩, ⟨[]⟩, 0, 0, 0⟩

/-- Handles of the buffers currently live in the device. -/
def liveBufferHandles (dev : AiDevice) : List Nat :=
  dev.buffer_idr.keys

/-- Handles of the models currently live in the device. -/
def liveModelHandles (dev : AiDevice) : List Nat :=
  dev.model_idr.keys

/-- Outcomes of the fallible kernel services a handler calls: user-space
copy-in, kernel memory allocation, payload copy-in (model data), and
user-space copy-out. -/
structure CopyEnv where
  copy_from_ok : Bool
  mem_ok : Bool
  data_copy_ok : Bool
  copy_to_ok : Bool

/-- Environment in which every kernel service succeeds. -/
def envAllOk : CopyEnv := ⟨true, true, true, true⟩

structure AllocRequest where
  size : Nat
  flags : Nat

/-- Embedding of `ai_ioctl_alloc`: validate the size, allocate backing
memory, insert the buffer into `buffer_idr` at the lowest free handle at or
above 1, and undo the insertion when the copy-out of the reply fails. -/
def ai_ioctl_alloc (dev : AiDevice) (req : AllocRequest) (env : CopyEnv) :
    Except Int Nat × AiDevice :=
  if !env.copy_from_ok then (.error (-EFAULT), dev)
  else if req.size = 0 ∨ req.size > MAX_ALLOC_SIZE then (.error (-EINVAL), dev)
  else if !env.mem_ok then (.error (-ENOMEM), dev)
  else
    match idr_alloc dev.buffer_idr ⟨req.size, req.flags⟩ 1 with
    | .error e => (.error e, dev)
    | .ok (handle, idr') =>
      if !env.copy_to_ok then
        (.error (-EFAULT), { dev with buffer_idr := idr_remove idr' handle })
      else
        (.ok handle, { dev with buffer_idr := idr' })

/-- Embedding of `ai_ioctl_free`: look the handle up in `buffer_idr`,
remove and release it when found, report `-EINVAL` otherwise. -/
def ai_ioctl_free (dev : AiDevice) (handle : Nat) (copy_from_ok : Bool) :
    Except Int Unit × AiDevice :=
  if !copy_from_ok then (.error (-EFAULT), dev)
  else
    match idr_find dev.buffer_idr handle with
    | some _ => (.ok (), { dev with buffer_idr := idr_remove dev.buffer_idr handle })
    | none => (.error (-EINVAL), dev)

structure LoadModelRequest where
  model_size : Nat
  flags : Nat

/-- Embedding of `ai_ioctl_load_model`: validate the size, allocate owned
storage, copy the model bytes in, insert into `model_idr` at the lowest
free handle at or above 1, and undo the insertion when the copy-out of the
reply fails. -/
def ai_ioctl_load_model (dev : AiDevice) (req : LoadModelRequest) (env : CopyEnv) :
    Except Int Nat × AiDevice :=
  if !env.copy_from_ok then (.error (-EFAULT), dev)
  else if req.model_size = 0 ∨ req.model_size > MAX_ALLOC_SIZE then (.error (-EINVAL), dev)
  else if !env.mem_ok then (.error (-ENOMEM), dev)
  else if !env.data_copy_ok then (.error (-EFAULT), dev)
  else
    match idr_alloc dev.model_idr ⟨req.model_size, req.flags⟩ 1 with
    | .error e => (.error e, dev)
    | .ok (handle, idr') =>
      if !env.copy_to_ok then
        (.error (-EFAULT), { dev with model_idr := idr_remove idr' handle })
      else
        (.ok handle, { dev with model_idr := idr' })

/-! ## Fence generation

`fence_counter` is declared `atomic_t`, a 32-bit signed integer, and the
fence is produced by `fence = atomic_inc_return(&dev->fence_counter)` into
a `u64` variable, so the `int` result is sign-extended to 64 bits. -/

/-- Wraparound modulus of the 32-bit `atomic_t`. -/
def ATOMIC_WRAP : Nat := 2 ^ 32

/-- Kernel `atomic_inc_return` on a 32-bit counter: increment with
two-complement wraparound. -/
def atomic_inc_return (c : Nat) : Nat := (c + 1) % ATOMIC_WRAP

/-- Conversion of the `int` returned by `atomic_inc_return` into the `u64`
fence field: bit patterns at or above `2 ^ 31` are negative `int` values
and sign-extend to large 64-bit values. -/
def fence_u64 (c : Nat) : Nat :=
  if c < 2 ^ 31 then c else c + (2 ^ 64 - 2 ^ 32)

/-- Fence value produced by the n-th successful submission on a device
opened with `fence_counter = 0`. -/
def fence_of_submission (n : Nat) : Nat :=
  fence_u64 (atomic_inc_return^[n] 0)

structure InferenceRequest where
  model_handle : Nat
  input_handle : Nat
  output_handle : Nat
  input_size : Nat
  output_size : Nat

/-- Embedding of `ai_ioctl_submit`: resolve the model handle and the two
buffer handles; only when all three are live, advance the fence counter,
update the statistics, and return the fence (the counter stays advanced
even when the reply copy-out fails, as in the source). -/
def ai_ioctl_submit (dev : AiDevice) (req : InferenceRequest) (env : CopyEnv) :
    Except Int Nat × AiDevice :=
  if !env.copy_from_ok then (.error (-EFAULT), dev)
  else if (idr_find dev.model_idr req.model_handle).isNone ||
      (idr_find dev.buffer_idr req.input_handle).isNone ||
      (idr_find dev.buffer_idr req.output_handle).isNone then
    (.error (-EINVAL), dev)
  else
    let c := atomic_inc_return dev.fence_counter
    let dev' : AiDevice :=
      { dev with
        fence_counter := c
        total_inferences := dev.total_inferences + 1
        total_bytes_processed := dev.total_bytes_processed + req.input_size + req.output_size }
    if !env.copy_to_ok then (.error (-EFAULT), dev')
    else (.ok (fence_u64 c), dev')

/-! ## Traces of buffer allocate/free calls on one open device -/

inductive BufOp where
  | alloc (req : AllocRequest) (env : CopyEnv)
  | free (handle : Nat) (copy_from_ok : Bool)

/-- State reached after serving one buffer ioctl. -/
def runOp (dev : AiDevice) : BufOp → AiDevice
  | .alloc req env => (ai_ioctl_alloc dev req env).2
  | .free h c => (ai_ioctl_free dev h c).2

/-- State reached after serving a sequence of buffer ioctls. -/
def runOps (dev : AiDevice) (ops : List BufOp) : AiDevice :=
  ops.foldl runOp dev

/-- A successful `ai_ioctl_alloc` returns a handle that is not live before
the call and prepends it to the live handles. -/
theorem ai_ioctl_alloc_fresh (dev : AiDevice) (req : AllocRequest) (env : CopyEnv)
    (h : Nat) (hok : (ai_ioctl_alloc dev req env).1 = .ok h) :
    h ∉ liveBufferHandles dev ∧
    liveBufferHandles (ai_ioctl_alloc dev req env).2 = h :: liveBufferHandles dev := by
  rcases halloc : idr_alloc dev.buffer_idr ⟨req.size, req.flags⟩ 1 with e | ⟨hh, idr'⟩
  all_goals simp only [ai_ioctl_alloc, halloc] at hok ⊢
  · split_ifs at hok ⊢
  · split_ifs at hok ⊢
    have hspec := idr_alloc_spec dev.buffer_idr ⟨req.size, req.flags⟩ 1 hh idr' halloc
    simp only [Except.ok.injEq] at hok
    have hh_eq : hh = h := hok
    subst hh_eq
    refine ⟨hspec.1, ?_⟩
    simpa [liveBufferHandles] using hspec.2.2

/-- Serving any alloc request keeps the live buffer handles duplicate-free. -/
theorem ai_ioctl_alloc_nodup (dev : AiDevice) (req : AllocRequest) (env : CopyEnv)
    (hnd : (liveBufferHandles dev).Nodup) :
    (liveBufferHandles (ai_ioctl_alloc dev req env).2).Nodup := by
  rcases halloc : idr_alloc dev.buffer_idr ⟨req.size, req.flags⟩ 1 with e | ⟨hh, idr'⟩
  all_goals simp only [ai_ioctl_alloc, halloc]
  · split_ifs <;> exact hnd
  · have hspec := idr_alloc_spec dev.buffer_idr ⟨req.size, req.flags⟩ 1 hh idr' halloc
    have hcons : (hh :: dev.buffer_idr.keys).Nodup :=
      List.nodup_cons.mpr ⟨hspec.1, hnd⟩
    split_ifs
    · exact hnd
    · exact hnd
    · exact hnd
    · have hsub := idr_remove_keys_sublist idr' hh
      rw [hspec.2.2] at hsub
      have hrm : (idr_remove idr' hh).keys.Nodup := List.Nodup.sublist hsub hcons
      simpa [liveBufferHandles] using hrm
    · have hidr : idr'.keys.Nodup := by rw [hspec.2.2]; exact hcons
      simpa [liveBufferHandles] using hidr

/-- Serving any free request keeps the live buffer handles duplicate-free. -/
theorem ai_ioctl_free_nodup (dev : AiDevice) (handle : Nat) (c : Bool)
    (hnd : (liveBufferHandles dev).Nodup) :
    (liveBufferHandles (ai_ioctl_free dev handle c).2).Nodup := by
  unfold ai_ioctl_free
  split_ifs
  · exact hnd
  · cases hfind : idr_find dev.buffer_idr handle
    · simp only [hfind]; exact hnd
    · simp only [hfind]
      have hsub := idr_remove_keys_sublist dev.buffer_idr handle
      have : (idr_remove dev.buffer_idr handle).keys.Nodup := List.Nodup.sublist hsub hnd
      simpa [liveBufferHandles] using this

/-- Every device state reachable by buffer ioctls from a duplicate-free
state has duplicate-free live handles. -/
theorem runOps_nodup (ops : List BufOp) :
    ∀ dev : AiDevice, (liveBufferHandles dev).Nodup →
      (liveBufferHandles (runOps dev ops)).Nodup := by
  induction ops with
  | nil => intro dev hnd; exact hnd
  | cons op ops ih =>
    intro dev hnd
    rw [runOps, List.foldl_cons]
    apply ih
    cases op with
    | alloc req env => exact ai_ioctl_alloc_nodup dev req env hnd
    | free h c => exact ai_ioctl_free_nodup dev h c hnd

/-- Claim C1: across every sequence of buffer allocate and free ioctls on
one open device, the live buffer handles are pairwise distinct, and a
handle returned by a successful allocation is distinct from every handle
live at that moment (it only becomes live through that allocation). -/
theorem C1_live_buffer_handles_unique (ops : List BufOp) :
    (liveBufferHandles (runOps initDevice ops)).Nodup ∧
    ∀ (req : AllocRequest) (env : CopyEnv) (h : Nat),
      (ai_ioctl_alloc (runOps initDevice ops) req env).1 = .ok h →
      h ∉ liveBufferHandles (runOps initDevice ops) ∧
      h ∈ liveBufferHandles (ai_ioctl_alloc (runOps initDevice ops) req env).2 ∧
      (liveBufferHandles (ai_ioctl_alloc (runOps initDevice ops) req env).2).Nodup := by
  have hinit : (liveBufferHandles initDevice).Nodup := by
    simp [liveBufferHandles, initDevice, Idr.keys]
  have hnd := runOps_nodup ops initDevice hinit
  refine ⟨hnd, ?_⟩
  intro req env h hok
  have hfresh := ai_ioctl_alloc_fresh (runOps initDevice ops) req env h hok
  refine ⟨hfresh.1, ?_, ?_⟩
  · rw [hfresh.2]; exact List.mem_cons_self h _
  · exact ai_ioctl_alloc_nodup (runOps initDevice ops) req env hnd

/-- Witness for C1: after allocating one 4096-byte buffer (handle 1), a
second allocation returns the fresh handle 2. -/
theorem C1_witness :
    2 ∉ liveBufferHandles (runOps initDevice [BufOp.alloc ⟨4096, 0⟩ envAllOk]) ∧
    2 ∈ liveBufferHandles
        (ai_ioctl_alloc (runOps initDevice [BufOp.alloc ⟨4096, 0⟩ envAllOk]) ⟨8, 0⟩ envAllOk).2 ∧
    (liveBufferHandles
        (ai_ioctl_alloc (runOps initDevice [BufOp.alloc ⟨4096, 0⟩ envAllOk]) ⟨8, 0⟩ envAllOk).2).Nodup :=
  (C1_live_buffer_handles_unique [BufOp.alloc ⟨4096, 0⟩ envAllOk]).2 ⟨8, 0⟩ envAllOk 2 rfl

/-- Claim C3: when any of the three handles of an inference request is not
live, `ai_ioctl_submit` fails with `-EINVAL` (the InvalidHandle error of
the spec) and leaves the device state, in particular the fence counter,
unchanged: no fence is consumed. -/
theorem C3_invalid_handle_consumes_no_fence (dev : AiDevice) (req : InferenceRequest)
    (env : CopyEnv) (hfrom : env.copy_from_ok = true)
    (hmiss : ((idr_find dev.model_idr req.model_handle).isNone ||
              (idr_find dev.buffer_idr req.input_handle).isNone ||
              (idr_find dev.buffer_idr req.output_handle).isNone) = true) :
    (ai_ioctl_submit dev req env).1 = .error (-EINVAL) ∧
    (ai_ioctl_submit dev req env).2 = dev ∧
    (ai_ioctl_submit dev req env).2.fence_counter = dev.fence_counter := by
  simp [ai_ioctl_submit, hfrom, hmiss]

/-- Witness for C3: submitting on a fresh device, where no handle is live,
is rejected with `-EINVAL` and the fence counter stays 0. -/
theorem C3_witness :
    (ai_ioctl_submit initDevice ⟨1, 1, 1, 16, 16⟩ envAllOk).1 = .error (-EINVAL) ∧
    (ai_ioctl_submit initDevice ⟨1, 1, 1, 16, 16⟩ envAllOk).2 = initDevice ∧
    (ai_ioctl_submit initDevice ⟨1, 1, 1, 16, 16⟩ envAllOk).2.fence_counter =
      initDevice.fence_counter :=
  C3_invalid_handle_consumes_no_fence initDevice ⟨1, 1, 1, 16, 16⟩ envAllOk rfl rfl

/-- Claim C10: handles issued by `ai_ioctl_alloc` and `ai_ioctl_load_model`
are strictly positive, because both call `idr_alloc` with start ID 1; the
value 0 is never issued, so callers may use 0 as a no-handle sentinel. -/
theorem C10_issued_handles_strictly_positive (dev : AiDevice) (env : CopyEnv)
    (req : AllocRequest) (mreq : LoadModelRequest) (h k : Nat) :
    ((ai_ioctl_alloc dev req env).1 = .ok h → 0 < h) ∧
    ((ai_ioctl_load_model dev mreq env).1 = .ok k → 0 < k) := by
  constructor
  · intro hok
    rcases halloc : idr_alloc dev.buffer_idr ⟨req.size, req.flags⟩ 1 with e | ⟨hh, idr'⟩
    all_goals simp only [ai_ioctl_alloc, halloc] at hok
    · split_ifs at hok
    · split_ifs at hok
      have hspec := idr_alloc_spec dev.buffer_idr ⟨req.size, req.flags⟩ 1 hh idr' halloc
      simp only [Except.ok.injEq] at hok
      have hh_eq : hh = h := hok
      omega
  · intro hok
    rcases halloc : idr_alloc dev.model_idr ⟨mreq.model_size, mreq.flags⟩ 1 with e | ⟨hh, idr'⟩
    all_goals simp only [ai_ioctl_load_model, halloc] at hok
    · split_ifs at hok
    · split_ifs at hok
      have hspec := idr_alloc_spec dev.model_idr ⟨mreq.model_size, mreq.flags⟩ 1 hh idr' halloc
      simp only [Except.ok.injEq] at hok
      have hh_eq : hh = k := hok
      omega

/-- Witness for C10: the first buffer allocation and the first model load
on a fresh device both return handle 1, which is strictly positive. -/
theorem C10_witness :
    (ai_ioctl_alloc initDevice ⟨4096, 0⟩ envAllOk).1 = .ok 1 ∧ 0 < 1 ∧
    (ai_ioctl_load_model initDevice ⟨64, 0⟩ envAllOk).1 = .ok 1 ∧ 0 < 1 :=
  ⟨rfl,
   (C10_issued_handles_strictly_positive initDevice envAllOk ⟨4096, 0⟩ ⟨64, 0⟩ 1 1).1 rfl,
   rfl,
   (C10_issued_handles_strictly_positive initDevice envAllOk ⟨4096, 0⟩ ⟨64, 0⟩ 1 1).2 rfl⟩

/-! ## Fence counter iteration (`ai_ioctl_submit` of `ai_accel.c`)

The counter starts at 0 at device initialization and each successful
submission advances it once with `atomic_inc_return`. -/

/-- Iterating the 32-bit increment n times from 0 reaches `n % 2 ^ 32`. -/
theorem atomic_iterate (n : Nat) : atomic_inc_return^[n] 0 = n % ATOMIC_WRAP := by
  induction n with
  | zero => simp [ATOMIC_WRAP]
  | succ n ih =>
    rw [Function.iterate_succ_apply', ih]
    unfold atomic_inc_return
    exact Nat.mod_add_mod n ATOMIC_WRAP 1

/-- Concrete device state with model handle 1 and buffer handles 1 and 2
live and the fence counter at 0. -/
def devLive : AiDevice :=
  ⟨⟨[(1, ⟨4096, 0⟩), (2, ⟨8, 0⟩)]⟩, ⟨[(1, ⟨64, 0⟩)]⟩, 0, 0, 0⟩

/-- Claim C2 fails on the code: the fence counter is a 32-bit `atomic_t`,
so after `2 ^ 32` submissions the counter wraps to 0.  The fence of
submission `2 ^ 32 + 1` equals the fence of submission 1 (a fence value is
generated twice), and the fence of submission `2 ^ 32` is smaller than the
fence of submission `2 ^ 32 - 1` (the sequence decreases).  The last
conjunct ties the generator to the submit handler: a successful submission
on a live device returns exactly `fence_of_submission 1`. -/
theorem C2_fence_counter_wraps :
    fence_of_submission (2 ^ 32 + 1) = fence_of_submission 1 ∧
    (2 : Nat) ^ 32 + 1 ≠ 1 ∧
    fence_of_submission (2 ^ 32) < fence_of_submission (2 ^ 32 - 1) ∧
    (ai_ioctl_submit devLive ⟨1, 1, 2, 16, 16⟩ envAllOk).1 = .ok (fence_of_submission 1) := by
  have h1 := atomic_iterate (2 ^ 32 + 1)
  have h2 := atomic_iterate 1
  have h3 := atomic_iterate (2 ^ 32)
  have h4 := atomic_iterate (2 ^ 32 - 1)
  refine ⟨?_, by norm_num, ?_, rfl⟩
  · rw [fence_of_submission, fence_of_submission, h1, h2]
    norm_num [ATOMIC_WRAP, Nat.add_mod_left]
  · rw [fence_of_submission, fence_of_submission, h3, h4]
    norm_num [ATOMIC_WRAP, fence_u64]

/-! ## Scatter-gather builder (`ai_dma_map_user_buffer` of `ai_dma.c`)

The length of entry `i` is computed by the C expression
`min_t(size_t, PAGE_SIZE - offset, size - (i * PAGE_SIZE - offset_in_page(user_addr)))`
in unsigned 64-bit arithmetic, so for `i = 0` the inner subtraction wraps. -/

def PAGE_SIZE : Nat := 4096

def offset_in_page (addr : Nat) : Nat := addr % PAGE_SIZE

def DIV_ROUND_UP (n d : Nat) : Nat := (n + d - 1) / d

/-- Wraparound modulus of `size_t` / `unsigned long` (64-bit kernel). -/
def U64_WRAP : Nat := 2 ^ 64

/-- Unsigned 64-bit subtraction as C computes it. -/
def sub_u64 (a b : Nat) : Nat := (a % U64_WRAP + U64_WRAP - b % U64_WRAP) % U64_WRAP

/-- Page count computed in `ai_dma_map_user_buffer`. -/
def ai_nr_pages (user_addr size : Nat) : Nat :=
  DIV_ROUND_UP (size + offset_in_page user_addr) PAGE_SIZE

/-- One scatter-gather entry: offset within its page and byte length. -/
structure SgEnt where
  offset : Nat
  length : Nat
deriving DecidableEq

/-- Length assigned to scatter-gather entry `i` by the fill loop. -/
def sg_len (user_addr size i : Nat) : Nat :=
  let off := if i = 0 then offset_in_page user_addr else 0
  min (PAGE_SIZE - off) (sub_u64 size (sub_u64 (i * PAGE_SIZE) (offset_in_page user_addr)))

/-- The scatter-gather list built by the fill loop of
`ai_dma_map_user_buffer` for a user region. -/
def sg_fill (user_addr size : Nat) : List SgEnt :=
  (List.range (ai_nr_pages user_addr size)).map (fun i =>
    ⟨if i = 0 then offset_in_page user_addr else 0, sg_len user_addr size i⟩)

/-- Sum of the segment lengths of the built scatter-gather list. -/
def sg_total (user_addr size : Nat) : Nat :=
  ((sg_fill user_addr size).map SgEnt.length).sum

/-- Claim C5 fails on the code: for the one-page user region at page
offset 1 with requested length 1 byte, the fill loop produces a single
entry of length 2, so the segment lengths sum to 2 and not to the
requested 1 byte (the `i = 0` operand of the `min` wraps to
`size + offset` instead of the remaining `size`). -/
theorem C5_sg_lengths_do_not_sum_to_size :
    ai_nr_pages 1 1 = 1 ∧
    sg_fill 1 1 = [⟨1, 2⟩] ∧
    sg_total 1 1 = 2 ∧
    sg_total 1 1 ≠ 1 :=
  ⟨rfl, rfl, rfl, by decide⟩

/-! ## Failure unwinding in `ai_dma_map_user_buffer`

The function acquires, in order: the descriptor (`kzalloc`), the page
array (`kvmalloc_array`), the page pins (`pin_user_pages_fast`), the
scatter-gather array (`kvmalloc_array`), and the DMA mapping
(`dma_map_sg`).  Each failure path releases what was acquired; the
outcome records how many pages were pinned and unpinned and how many
allocations were made and freed during the call. -/

structure MapEnv where
  kzalloc_ok : Bool
  pages_alloc_ok : Bool
  pin_result : Int
  sg_alloc_ok : Bool
  map_count : Nat

structure MapOutcome where
  result : Except Int (List SgEnt)
  pinned : Nat
  unpinned : Nat
  allocs : Nat
  frees : Nat

/-- Embedding of `ai_dma_map_user_buffer` with its resource effects:
each branch mirrors one failure path of the C function and accounts the
pins, unpins, allocations and frees that path performs. -/
def ai_dma_map_user_buffer (user_addr size : Nat) (env : MapEnv) : MapOutcome :=
  if !env.kzalloc_ok then ⟨.error (-ENOMEM), 0, 0, 0, 0⟩
  else if !env.pages_alloc_ok then ⟨.error (-ENOMEM), 0, 0, 1, 1⟩
  else if env.pin_result < 0 then ⟨.error env.pin_result, 0, 0, 2, 2⟩
  else if env.pin_result.toNat ≠ ai_nr_pages user_addr size then
    ⟨.error (-EFAULT), env.pin_result.toNat, env.pin_result.toNat, 2, 2⟩
  else if !env.sg_alloc_ok then
    ⟨.error (-ENOMEM), ai_nr_pages user_addr size, ai_nr_pages user_addr size, 2, 2⟩
  else if env.map_count = 0 then
    ⟨.error (-EIO_err), ai_nr_pages user_addr size, ai_nr_pages user_addr size, 3, 3⟩
  else
    ⟨.ok (sg_fill user_addr size), ai_nr_pages user_addr size, 0, 3, 1⟩

/-- Claim C6: every failing run of `ai_dma_map_user_buffer` unwinds
completely: as many pages are unpinned as were pinned (a short pin unpins
exactly the pages that did pin; a zero-segment mapping unpins all pages)
and every allocation acquired during the call is freed. -/
theorem C6_map_user_buffer_fails_atomically (user_addr size : Nat) (env : MapEnv)
    (e : Int) (herr : (ai_dma_map_user_buffer user_addr size env).result = .error e) :
    (ai_dma_map_user_buffer user_addr size env).pinned =
      (ai_dma_map_user_buffer user_addr size env).unpinned ∧
    (ai_dma_map_user_buffer user_addr size env).allocs =
      (ai_dma_map_user_buffer user_addr size env).frees := by
  unfold ai_dma_map_user_buffer at herr ⊢
  split_ifs at herr ⊢ <;> simp_all

/-- Witness for C6: mapping the one-byte region when `dma_map_sg` maps
zero segments pins one page and unpins it again, and frees all three
allocations. -/
theorem C6_witness :
    (ai_dma_map_user_buffer 1 1 ⟨true, true, 1, true, 0⟩).pinned =
      (ai_dma_map_user_buffer 1 1 ⟨true, true, 1, true, 0⟩).unpinned ∧
    (ai_dma_map_user_buffer 1 1 ⟨true, true, 1, true, 0⟩).allocs =
      (ai_dma_map_user_buffer 1 1 ⟨true, true, 1, true, 0⟩).frees :=
  C6_map_user_buffer_fails_atomically 1 1 ⟨true, true, 1, true, 0⟩ (-EIO_err) rfl

/-! ## Channel pool and synchronous transfer (`ai_dma.c`)

`channel_bitmap` has bit `i` set when DMA channel `i` was obtained at
`ai_dma_init`.  `ai_dma_transfer_sync` scans for the first set bit and
uses that channel; no bit is cleared or set by the scan or by the
transfer. -/

def AI_DMA_CHANNELS : Nat := 4

/-- Channel selection loop of `ai_dma_transfer_sync` and
`ai_dma_transfer_async`: the first channel index whose bitmap bit is set. -/
def find_channel (bitmap : Nat) : Option Nat :=
  (List.range AI_DMA_CHANNELS).find? (fun i => bitmap.testBit i)

/-- Number of channels the bitmap reports as usable. -/
def count_free (bitmap : Nat) : Nat :=
  ((List.range AI_DMA_CHANNELS).filter (fun i => bitmap.testBit i)).length

/-- Outcomes of the transfer services: descriptor preparation
(`dmaengine_prep_dma_memcpy`), submission (the cookie checked by
`dma_submit_error`, an error when negative), and whether the completion
fired before the timeout. -/
structure SyncEnv where
  prep_ok : Bool
  submit_result : Int
  completed : Bool

structure SyncOutcome where
  result : Int
  bitmap : Nat
  terminated : Bool

/-- Embedding of `ai_dma_transfer_sync`: select a channel from the bitmap,
prepare and submit the descriptor, wait with timeout; on timeout call
`dmaengine_terminate_sync` and return `-ETIMEDOUT`.  The outcome records
the bitmap at return and whether the termination ran. -/
def ai_dma_transfer_sync (bitmap : Nat) (env : SyncEnv) : SyncOutcome :=
  match find_channel bitmap with
  | none => ⟨-ENODEV, bitmap, false⟩
  | some _ =>
    if !env.prep_ok then ⟨-ENOMEM, bitmap, false⟩
    else if env.submit_result < 0 then ⟨env.submit_result, bitmap, false⟩
    else if !env.completed then ⟨-ETIMEDOUT, bitmap, true⟩
    else ⟨0, bitmap, false⟩

/-- The transfer path never updates the channel bitmap. -/
theorem transfer_sync_bitmap_unchanged (bitmap : Nat) (env : SyncEnv) :
    (ai_dma_transfer_sync bitmap env).bitmap = bitmap := by
  rcases hfc : find_channel bitmap with _ | c <;>
    simp only [ai_dma_transfer_sync, hfc] <;>
    split_ifs <;> rfl

/-- Claim C7 fails on the code: with all four channels initialized
(bitmap 15), the selection hands out channel 0, the bitmap is unchanged by
a transfer (no lease is recorded for any environment), and a second
selection while the first transfer is in flight is handed channel 0
again; exhaustion can never be reported while any channel exists. -/
theorem C7_channels_have_no_exclusive_owner :
    find_channel 15 = some 0 ∧
    (∀ env : SyncEnv, (ai_dma_transfer_sync 15 env).bitmap = 15) ∧
    find_channel ((ai_dma_transfer_sync 15 ⟨true, 1, true⟩).bitmap) = some 0 ∧
    (ai_dma_transfer_sync 15 ⟨true, 1, true⟩).result = 0 := by
  refine ⟨by decide, fun env => transfer_sync_bitmap_unchanged 15 env, ?_, by decide⟩
  rw [transfer_sync_bitmap_unchanged]
  decide

/-- Claim C8: when a channel exists, preparation and submission succeed
and the completion does not fire within the timeout, `ai_dma_transfer_sync`
terminates the in-flight operation, returns `-ETIMEDOUT`, and the channel
bitmap — hence the number of usable channels in the pool — is the same
after the call as before it. -/
theorem C8_timeout_terminates_and_preserves_pool (bitmap : Nat) (env : SyncEnv)
    (hchan : (find_channel bitmap).isSome = true)
    (hprep : env.prep_ok = true)
    (hsubmit : ¬ env.submit_result < 0)
    (hto : env.completed = false) :
    (ai_dma_transfer_sync bitmap env).result = -ETIMEDOUT ∧
    (ai_dma_transfer_sync bitmap env).terminated = true ∧
    (ai_dma_transfer_sync bitmap env).bitmap = bitmap ∧
    count_free (ai_dma_transfer_sync bitmap env).bitmap = count_free bitmap := by
  rcases hfc : find_channel bitmap with _ | c
  · rw [hfc] at hchan; simp at hchan
  · simp [ai_dma_transfer_sync, hfc, hprep, hsubmit, hto]

/-- Witness for C8: with all four channels present and a transfer whose
completion never fires, the call times out, terminates the operation and
leaves the pool unchanged. -/
theorem C8_witness :
    (ai_dma_transfer_sync 15 ⟨true, 1, false⟩).result = -ETIMEDOUT ∧
    (ai_dma_transfer_sync 15 ⟨true, 1, false⟩).terminated = true ∧
    (ai_dma_transfer_sync 15 ⟨true, 1, false⟩).bitmap = 15 ∧
    count_free (ai_dma_transfer_sync 15 ⟨true, 1, false⟩).bitmap = count_free 15 :=
  C8_timeout_terminates_and_preserves_pool 15 ⟨true, 1, false⟩ rfl rfl (by decide) rfl

/-! ## Second resource manager (`ai_ioctl.c`)

`ai_ioctl_alloc_memory` hands out the DMA bus address as the handle and
adds the page-aligned size to `mem_used`; `ai_ioctl_free_memory` never
looks the handle up — it only subtracts the caller-supplied size from
`mem_used` when it fits, and always reports success. -/

def PAGE_ALIGN (n : Nat) : Nat := DIV_ROUND_UP n PAGE_SIZE * PAGE_SIZE

structure AiAccelDevMem where
  mem_size : Nat
  mem_used : Nat

/-- Embedding of `ai_ioctl_alloc_memory`; `dma_handle` is the bus address
chosen by `dma_alloc_coherent`, returned to the caller as the handle. -/
def ai_ioctl_alloc_memory (adev : AiAccelDevMem) (alloc_size : Nat) (dma_handle : Nat)
    (env : CopyEnv) : Except Int Nat × AiAccelDevMem :=
  if !env.copy_from_ok then (.error (-EFAULT), adev)
  else if alloc_size = 0 ∨ alloc_size > 64 * 2 ^ 20 then (.error (-EINVAL), adev)
  else
    let sz := PAGE_ALIGN alloc_size
    if adev.mem_used + sz > adev.mem_size then (.error (-ENOMEM), adev)
    else if !env.mem_ok then (.error (-ENOMEM), adev)
    else if !env.copy_to_ok then
      (.error (-EFAULT), { adev with mem_used := adev.mem_used + sz - sz })
    else (.ok dma_handle, { adev with mem_used := adev.mem_used + sz })

/-- Embedding of `ai_ioctl_free_memory`: no handle validation at all; the
caller-supplied size is subtracted from `mem_used` when it fits, and the
call reports success either way. -/
def ai_ioctl_free_memory (adev : AiAccelDevMem) (mfree_size : Nat) (copy_from_ok : Bool) :
    Int × AiAccelDevMem :=
  if !copy_from_ok then (-EFAULT, adev)
  else if mfree_size ≤ adev.mem_used then
    (0, { adev with mem_used := adev.mem_used - mfree_size })
  else (0, adev)

/-- Claim C4 fails on `ai_ioctl_free_memory`: after one 4096-byte
allocation (handle 77) and one free, a second free of the same
no-longer-live allocation still returns 0 (success) instead of a NotFound
error, and the first free decremented `mem_used` without any validation
that the named resource was outstanding. -/
theorem C4_free_memory_never_reports_not_found :
    (ai_ioctl_alloc_memory ⟨2 ^ 30, 0⟩ 4096 77 envAllOk).1 = .ok 77 ∧
    (ai_ioctl_alloc_memory ⟨2 ^ 30, 0⟩ 4096 77 envAllOk).2.mem_used = 4096 ∧
    (ai_ioctl_free_memory (ai_ioctl_alloc_memory ⟨2 ^ 30, 0⟩ 4096 77 envAllOk).2 4096 true).1 = 0 ∧
    (ai_ioctl_free_memory (ai_ioctl_alloc_memory ⟨2 ^ 30, 0⟩ 4096 77 envAllOk).2 4096 true).2.mem_used = 0 ∧
    (ai_ioctl_free_memory
      (ai_ioctl_free_memory (ai_ioctl_alloc_memory ⟨2 ^ 30, 0⟩ 4096 77 envAllOk).2 4096 true).2
      4096 true).1 = 0 :=
  ⟨rfl, rfl, rfl, rfl, rfl⟩

/-! ## Wait-for-completion (`ai_ioctl_wait_completion` of `ai_ioctl.c`) -/

/-- Embedding of `ai_ioctl_wait_completion`: the handler copies the
request in, unconditionally sets `status = AI_STATUS_SUCCESS` without
consulting the fence or any job table, copies the reply out, and returns
0; the second component is the status delivered to the caller. -/
def ai_ioctl_wait_completion (fence timeout_ns : Nat)
    (copy_from_ok copy_to_ok : Bool) : Int × Option Int :=
  if !copy_from_ok then (-EFAULT, none)
  else if !copy_to_ok then (-EFAULT, none)
  else (0, some AI_STATUS_SUCCESS)

/-- Claim C9 fails on the code: waiting on fence 999, which was never
issued, immediately returns 0 with status `AI_STATUS_SUCCESS`; indeed the
handler returns success for every fence and timeout without blocking. -/
theorem C9_wait_reports_success_for_unknown_fence :
    ai_ioctl_wait_completion 999 0 true true = (0, some AI_STATUS_SUCCESS) ∧
    ∀ fence timeout_ns,
      ai_ioctl_wait_completion fence timeout_ns true true = (0, some AI_STATUS_SUCCESS) :=
  ⟨rfl, fun _ _ => rfl⟩

end AiAccel
